import Mathlib

/-!
# Verification of the VrindaDev agent orchestration core

Shallow embedding of the agent core of the VrindaDev repository:
the fuzzy search/replace patcher (`search_replace.ts`, `applySearchReplace`),
the provider-routing queue and the turn-based execution loop of
`src/core/ai_service.ts` (`streamChat`), and the tool dispatch of
`MCPManager.callTool`.

Modelling conventions:
* JavaScript strings are Lean `String`s (all inputs of interest are ASCII);
  `s.length` is the Lean length.
* JavaScript floating-point similarity scores are modelled exactly, as
  numerator/denominator pairs compared by cross-multiplication (see the
  FuzzyPatcher section); every comparison in the claims is far from any
  float-rounding boundary.
* Network calls, the LLM, and tool side effects are abstracted as
  explicit outcome scripts consumed sequentially; the observable behaviour
  of a run is a trace of events (provider calls, sleeps, emitted chunks,
  tool executions).
-/

namespace VrindaDev

/-! ## String utilities mirroring the JavaScript primitives used by the code -/

/-- The whitespace class of JavaScript `String.prototype.trim` / `\s`,
restricted to the ASCII characters that can occur in the inputs. -/
def isWS (c : Char) : Bool :=
  c = ' ' || c = '\t' || c = '\n' || c = '\r' || c = '\x0b' || c = '\x0c'

/-- JavaScript `line.trim()`. -/
def trimStr (s : String) : String :=
  String.mk (((s.data.dropWhile isWS).reverse.dropWhile isWS).reverse)

/-- JavaScript `line.trimStart()`. -/
def trimStartStr (s : String) : String :=
  String.mk (s.data.dropWhile isWS)

/-- Leading whitespace of a line, JavaScript `line.match(/^\s*/)[0]`. -/
def leadingWS (s : String) : String :=
  String.mk (s.data.takeWhile isWS)

/-- Does `pat` occur at the very start of `l`? -/
def startsWithL : List Char → List Char → Bool
  | [], _ => true
  | _ :: _, [] => false
  | a :: as, b :: bs => a = b && startsWithL as bs

/-- Does `pat` occur anywhere in `l`?  JavaScript `l.includes(pat)`. -/
def containsSubL (pat : List Char) : List Char → Bool
  | [] => startsWithL pat []
  | c :: rest => startsWithL pat (c :: rest) || containsSubL pat rest

/-- JavaScript `s.includes(pat)`. -/
def containsSub (s pat : String) : Bool :=
  containsSubL pat.data s.data

/-- The backquote character (code point 96). -/
def backquoteChar : Char := Char.ofNat 96

/-- The apostrophe character (code point 39). -/
def aposChar : Char := Char.ofNat 39

/-- ECMAScript `GetSubstitution` for a plain-string search value (which has
no capture groups): in the replacement, `$$` expands to `$`, `$&` to the
matched substring, `$` + backquote to the portion of the subject before
the match and `$` + apostrophe to the portion after it; every other `$`
sequence (`$1` … with no captures, `$<`, a trailing `$`, …) stays
literal. -/
def expandDollar (matched ahead behind : List Char) : List Char → List Char
  | [] => []
  | c :: rest =>
    if c = '$' then
      match rest with
      | [] => ['$']
      | c2 :: rest2 =>
        if c2 = '$' then '$' :: expandDollar matched ahead behind rest2
        else if c2 = '&' then matched ++ expandDollar matched ahead behind rest2
        else if c2 = backquoteChar then ahead ++ expandDollar matched ahead behind rest2
        else if c2 = aposChar then behind ++ expandDollar matched ahead behind rest2
        else '$' :: c2 :: expandDollar matched ahead behind rest2
    else c :: expandDollar matched ahead behind rest

/-- Scan for the first (leftmost) occurrence of `pat`, accumulating the
part already scanned in reverse; on a match, splice in the `$`-expanded
replacement; without a match, return the subject unchanged. -/
def replaceFirstAux (pat repl : List Char) : List Char → List Char → List Char
  | [], aheadRev =>
    if startsWithL pat [] then
      aheadRev.reverse ++ expandDollar pat aheadRev.reverse [] repl
    else aheadRev.reverse
  | c :: rest, aheadRev =>
    if startsWithL pat (c :: rest) then
      aheadRev.reverse
        ++ expandDollar pat aheadRev.reverse ((c :: rest).drop pat.length) repl
        ++ (c :: rest).drop pat.length
    else replaceFirstAux pat repl rest (c :: aheadRev)

/-- Replace the first occurrence of `pat` in `l` by `repl` with JavaScript
`String.prototype.replace` semantics for a string replacement, including
its `$`-substitution patterns. -/
def replaceFirstL (pat repl l : List Char) : List Char :=
  replaceFirstAux pat repl l []

/-- JavaScript `s.replace(pat, repl)` (first occurrence, string
replacement with `$`-substitution). -/
def replaceFirst (s pat repl : String) : String :=
  String.mk (replaceFirstL pat.data repl.data s.data)

/-- Split on `'\n'`, accumulating the current line in reverse. -/
def splitNLAux : List Char → List Char → List String
  | [], acc => [String.mk acc.reverse]
  | c :: rest, acc =>
    if c = '\n' then String.mk acc.reverse :: splitNLAux rest []
    else splitNLAux rest (c :: acc)

/-- Drop one trailing `'\r'` from a line, if present. -/
def dropLastCR (l : List Char) : List Char :=
  if l.getLast? = some '\r' then l.dropLast else l

/-- Strip the trailing `'\r'` of every piece that was followed by a `'\n'`
separator (every piece except the last one). -/
def stripCRs : List String → List String
  | [] => []
  | [x] => [x]
  | x :: xs => String.mk (dropLastCR x.data) :: stripCRs xs

/-- JavaScript `s.split(/\r?\n/)`: splitting on `'\n'` and removing one `'\r'`
immediately before each matched `'\n'` is exactly the same decomposition. -/
def splitLines (s : String) : List String :=
  stripCRs (splitNLAux s.data [])

/-- The LF-normalized form of a string: its `/\r?\n/` lines re-joined with
`"\n"` (the `fileStr`/`searchStr`/`replaceStr` values of the patcher). -/
def normLF (s : String) : String :=
  String.intercalate "\n" (splitLines s)

/-- JavaScript `s.substring(0, n)`. -/
def takeStr (s : String) (n : ℕ) : String :=
  String.mk (s.data.take n)

/-! ## Levenshtein distance (the `fastest-levenshtein` `distance` function) -/

/-- One row update of the standard dynamic-programming edit-distance table:
given the previous row (against `ys`) and the cell to the left, produce the
rest of the new row for character `x`. -/
def levRowAux (x : Char) : List Char → List ℕ → ℕ → List ℕ
  | y :: ys, d0 :: d1 :: ds, left =>
    let cost : ℕ := if x = y then 0 else 1
    let cell := min (d0 + cost) (min (d1 + 1) (left + 1))
    cell :: levRowAux x ys (d1 :: ds) cell
  | _, _, _ => []

/-- Levenshtein edit distance between two character lists. -/
def levenshtein (xs ys : List Char) : ℕ :=
  let row0 := List.range (ys.length + 1)
  let lastRow := xs.foldl
    (fun row x => (row.headD 0 + 1) :: levRowAux x ys row (row.headD 0 + 1))
    row0
  lastRow.getLastD 0

/-- `distance(a, b)` from `fastest-levenshtein`. -/
def distance (a b : String) : ℕ :=
  levenshtein a.data b.data

/-! ## The FuzzyPatcher: `applySearchReplace` (search_replace.ts)

The JavaScript code scores each window with the floating-point value
`score = 1 - dist / maxLen` and compares scores against each other and
against the constants `0.5`, `0.85` (`SIMILARITY_THRESHOLD`), `0.98`
and `0.99`.  The embedding represents the exact rational `1 - d / m`
by the pair `(d, m)` with `0 < m` and performs every comparison by
cross-multiplication over `ℕ`, which is exact (`simLt_iff`,
`simGtConst_iff`, `simGeConst_iff` below prove the correspondence with
the rational values); every comparison in the claims is far from any
float-rounding boundary. -/

/-- Exact version of `1 - d1/m1 < 1 - d2/m2` (for `0 < m1`, `0 < m2`). -/
def simLt (d1 m1 d2 m2 : ℕ) : Bool := d2 * m1 < d1 * m2

/-- Exact version of `1 - d/m < p/q` (for `0 < m`, `0 < q`). -/
def simLtConst (d m p q : ℕ) : Bool := q * m < p * m + q * d

/-- Exact version of `1 - d/m > p/q` (for `0 < m`, `0 < q`). -/
def simGtConst (d m p q : ℕ) : Bool := p * m + q * d < q * m

/-- Exact version of `1 - d/m ≥ p/q` (for `0 < m`, `0 < q`). -/
def simGeConst (d m p q : ℕ) : Bool := p * m + q * d ≤ q * m

/-- The first-line pruning gate of the primary version of the patcher:
skip the window when the trimmed first lines differ and their similarity
`1 - d / maxLen` is below `0.5` (with `maxLen > 0`). -/
def gateSkipV1 (fileFirst searchFirst : String) : Bool :=
  if fileFirst ≠ searchFirst then
    let d := distance fileFirst searchFirst
    let m := max fileFirst.length searchFirst.length
    decide (0 < m) && simLtConst d m 1 2
  else false

/-- The first-line pruning gate of the second version of the patcher:
skip when the trimmed first lines differ and their edit distance exceeds 5. -/
def gateSkipV2 (fileFirst searchFirst : String) : Bool :=
  fileFirst ≠ searchFirst && decide (5 < distance fileFirst searchFirst)

/-- One pass of the fuzzy sliding-window loop.  `fuel` counts the remaining
iterations (the JavaScript loop runs for `i = 0 .. fileLines.length -
searchLines.length` inclusive), `i` is the current window start, and
`best`/`bidx` are the running best score (as a `(d, m)` pair, initially
`(1, 1)`, i.e. score `0`) and window index (`bidx = none` models
`bestIndex === -1`).  `gate` selects the pruning variant and `earlyExit`
the early-exit threshold as a fraction `p/q` (`99/100` resp. `98/100`). -/
def fuzzyLoop (fileLines searchLines : List String) (searchTrimmed : String)
    (gate : String → String → Bool) (earlyExit : ℕ × ℕ) :
    ℕ → ℕ → ℕ × ℕ → Option ℕ → (ℕ × ℕ) × Option ℕ
  | 0, _, best, bidx => (best, bidx)
  | fuel + 1, i, best, bidx =>
    let fileFirst := trimStr ((fileLines.drop i).headD "")
    let searchFirst := trimStr (searchLines.headD "")
    if gate fileFirst searchFirst then
      fuzzyLoop fileLines searchLines searchTrimmed gate earlyExit fuel (i + 1) best bidx
    else
      let chunk := (fileLines.drop i).take searchLines.length
      let chunkTrimmed := String.intercalate "\n" (chunk.map trimStr)
      let d := distance chunkTrimmed searchTrimmed
      let m := max chunkTrimmed.length searchTrimmed.length
      if m = 0 then
        fuzzyLoop fileLines searchLines searchTrimmed gate earlyExit fuel (i + 1) best bidx
      else
        let better := simLt best.1 best.2 d m
        let best' := if better then (d, m) else best
        let bidx' := if better then some i else bidx
        if simGtConst best'.1 best'.2 earlyExit.1 earlyExit.2 then (best', bidx')
        else fuzzyLoop fileLines searchLines searchTrimmed gate earlyExit fuel (i + 1) best' bidx'

/-- The body shared by both versions of `applySearchReplace`
(search_replace.ts), parameterised by the pruning gate and early-exit
threshold, which are the only differences between the two revisions. -/
def applySearchReplaceGen (gate : String → String → Bool) (earlyExit : ℕ × ℕ)
    (fileContent searchBlock replaceBlock : String) : Option String :=
  let lineEnding := if containsSub fileContent "\r\n" then "\r\n" else "\n"
  let fileLines := splitLines fileContent
  let searchLines := splitLines searchBlock
  let replaceLines := splitLines replaceBlock
  if searchLines.length = 0 then none
  else
    let fileStr := String.intercalate "\n" fileLines
    let searchStr := String.intercalate "\n" searchLines
    let replaceStr := String.intercalate "\n" replaceLines
    if containsSub fileStr searchStr then
      some (replaceFirst fileStr searchStr replaceStr)
    else
      let searchTrimmed := String.intercalate "\n" (searchLines.map trimStr)
      let bp :=
        if searchLines.length ≤ fileLines.length then
          fuzzyLoop fileLines searchLines searchTrimmed gate earlyExit
            (fileLines.length - searchLines.length + 1) 0 (1, 1) none
        else ((1, 1), none)
      match bp.2 with
      | some bi =>
        if simGeConst bp.1.1 bp.1.2 17 20 then
          let matchedLine := (fileLines.drop bi).headD ""
          let actualIndent := leadingWS matchedLine
          let indentedReplaceLines := replaceLines.map fun line =>
            if trimStr line = "" then line else actualIndent ++ trimStartStr line
          let before := fileLines.take bi
          let after := fileLines.drop (bi + searchLines.length)
          some (String.intercalate lineEnding (before ++ indentedReplaceLines)
                ++ lineEnding ++ String.intercalate lineEnding after)
        else none
      | none => none

/-- `applySearchReplace` of the primary revision of search_replace.ts
(ratio-based first-line gate, early exit above `0.99`). -/
def applySearchReplace (fileContent searchBlock replaceBlock : String) :
    Option String :=
  applySearchReplaceGen gateSkipV1 (99, 100) fileContent searchBlock replaceBlock

/-- `applySearchReplace` of the second revision of search_replace.ts
(absolute first-line gate `distance > 5`, early exit above `0.98`). -/
def applySearchReplaceV2 (fileContent searchBlock replaceBlock : String) :
    Option String :=
  applySearchReplaceGen gateSkipV2 (98, 100) fileContent searchBlock replaceBlock

/-! ## Settings and the provider queue (ai_service.ts, `streamChat` steps 1–2)

The settings reader is abstracted as a record of the fields `streamChat`
accesses; `Option` models a missing (`undefined`) field.  JavaScript `||`
falls through on the empty string (falsy) as well as on `undefined`, and
`??` only on `undefined`; both are modelled explicitly. -/

structure Settings where
  /-- `safeSettings.selectedChatMode` -/
  selectedChatMode : Option String
  /-- `safeSettings.autoApproveChanges` -/
  autoApproveChanges : Option Bool
  /-- `safeSettings.enableAutoFixProblems` -/
  enableAutoFixProblems : Option Bool
  /-- `safeSettings.selectedModel?.provider` -/
  selectedProvider : Option String
  /-- `safeSettings.selectedModel?.name` -/
  selectedName : Option String
  /-- `safeSettings.providerSettings?.[p]?.apiKey?.value` -/
  providerKeyNew : String → Option String
  /-- `safeSettings.apiKeys?.[p]` -/
  providerKeyOld : String → Option String
  /-- `safeSettings.isOllamaEnabled` -/
  isOllamaEnabled : Bool

/-- JavaScript `v || dflt` for an optional string (falls through when the
value is missing or the empty string). -/
def orFalsy (v : Option String) (dflt : String) : String :=
  match v with
  | some s => if s = "" then dflt else s
  | none => dflt

/-- JavaScript truthiness of an optional string value. -/
def truthy (v : Option String) : Bool :=
  match v with
  | some s => s ≠ ""
  | none => false

/-- `const getKey = (p) => safeSettings.providerSettings?.[p]?.apiKey?.value
|| safeSettings.apiKeys?.[p]` -/
def getKey (s : Settings) (p : String) : Option String :=
  match s.providerKeyNew p with
  | some v => if v = "" then s.providerKeyOld p else some v
  | none => s.providerKeyOld p

/-- `safeSettings.selectedChatMode || "ask"` -/
def chatModeOf (s : Settings) : String := orFalsy s.selectedChatMode "ask"

/-- `chatMode === "agent" || chatMode === "build"` -/
def isAgentModeOf (s : Settings) : Bool :=
  chatModeOf s = "agent" || chatModeOf s = "build"

/-- `safeSettings.autoApproveChanges ?? false` -/
def autoApproveOf (s : Settings) : Bool := s.autoApproveChanges.getD false

/-- `safeSettings.enableAutoFixProblems ?? true` -/
def autoFixOf (s : Settings) : Bool := s.enableAutoFixProblems.getD true

/-- `safeSettings.selectedModel?.provider || "auto"` -/
def requestedProvider (s : Settings) : String := orFalsy s.selectedProvider "auto"

/-- A provider queue entry `{ id, model, key }`. -/
structure Cand where
  id : String
  model : String
  key : String
deriving DecidableEq, Repr

/-- The queue as pushed before filtering (manual branch: one entry for the
selected provider; auto branch: the fixed openrouter → google → openai →
anthropic → ollama chain, each pushed only under its key/enables check). -/
def rawQueue (s : Settings) : List Cand :=
  if requestedProvider s ≠ "auto" then
    let req := requestedProvider s
    let key0 := getKey s req
    let key1 := if req = "ollama" then some "ollama" else key0
    [⟨req, orFalsy s.selectedName "gpt-4o", key1.getD ""⟩]
  else
    (if truthy (getKey s "openrouter") then
      [⟨"openrouter", "google/gemini-2.0-flash-001", (getKey s "openrouter").getD ""⟩] else [])
    ++ (if truthy (getKey s "google") then
      [⟨"google", "gemini-1.5-pro-latest", (getKey s "google").getD ""⟩] else [])
    ++ (if truthy (getKey s "openai") then
      [⟨"openai", "gpt-4o", (getKey s "openai").getD ""⟩] else [])
    ++ (if truthy (getKey s "anthropic") then
      [⟨"anthropic", "claude-3-5-sonnet-latest", (getKey s "anthropic").getD ""⟩] else [])
    ++ (if s.isOllamaEnabled || truthy (getKey s "ollama") then
      [⟨"ollama", "llama3", "ollama"⟩] else [])

/-- `providerQueue = providerQueue.filter(p => p.key && p.key.trim() !== "")` -/
def buildProviderQueue (s : Settings) : List Cand :=
  (rawQueue s).filter fun c => c.key ≠ "" && trimStr c.key ≠ ""

/-- Claim-side characterisation of the auto-mode queue, following the spec's
words: the fixed priority chain filtered to the candidates with a non-blank
key (ollama is enabled by `isOllamaEnabled` or a key and always carries the
synthetic non-blank key `"ollama"`).  Used only for the refinement
comparison with `buildProviderQueue`. -/
def autoQueueSpec (s : Settings) : List Cand :=
  (if (getKey s "openrouter").any (fun v => trimStr v ≠ "") then
    [⟨"openrouter", "google/gemini-2.0-flash-001", (getKey s "openrouter").getD ""⟩] else [])
  ++ (if (getKey s "google").any (fun v => trimStr v ≠ "") then
    [⟨"google", "gemini-1.5-pro-latest", (getKey s "google").getD ""⟩] else [])
  ++ (if (getKey s "openai").any (fun v => trimStr v ≠ "") then
    [⟨"openai", "gpt-4o", (getKey s "openai").getD ""⟩] else [])
  ++ (if (getKey s "anthropic").any (fun v => trimStr v ≠ "") then
    [⟨"anthropic", "claude-3-5-sonnet-latest", (getKey s "anthropic").getD ""⟩] else [])
  ++ (if s.isOllamaEnabled || truthy (getKey s "ollama") then
    [⟨"ollama", "llama3", "ollama"⟩] else [])

/-! ## The execution loop (ai_service.ts, `streamChat` step 6)

The provider HTTP exchange and the tool side effects are external, so they
are abstracted as scripts of outcomes consumed call by call; the loop's
observable behaviour is a trace of events.  Tool-call arguments are taken
in already-parsed form (the code `JSON.parse`s the `arguments` string; the
Windows-path-rewrite of the parsed `path` is incidental and not modelled).
The conversation-message bookkeeping only feeds the next provider request,
which the outcome script already abstracts, so it is not tracked. -/

/-- Parsed tool-call arguments (`fnArgs`); `none` models an absent field. -/
structure ToolArgs where
  path : Option String := none
  content : Option String := none
  command : Option String := none
  pattern : Option String := none
deriving DecidableEq, Repr

/-- One tool call of a provider response (`responseData.tool_calls[i]`). -/
structure ToolCall where
  id : String
  name : String
  args : ToolArgs
deriving DecidableEq, Repr

/-- A normalized provider response (`responseData`). -/
structure ProviderResponse where
  content : Option String
  toolCalls : List ToolCall
deriving DecidableEq, Repr

/-- Outcome of one provider HTTP attempt:  a normalized response, an
HTTP 429/503 (`throw new Error("RateLimit")`), a response carrying no
message (so `responseData` stays `null`), or any other error. -/
inductive ProviderOutcome where
  | success (r : ProviderResponse)
  | rateLimited
  | emptyResp
  | fatal (msg : String)
deriving DecidableEq, Repr

/-- Outcome of one `mcpManager.callTool` invocation:  a result with a
content array (joined to `resultStr`), a result with an `error` field,
or a thrown error. -/
inductive ToolOutcome where
  | okText (t : String)
  | errText (msg : String)
  | threw (msg : String)
deriving DecidableEq, Repr

/-- Observable events of a run:  a provider HTTP call (with the queue cursor
and provider id at call time), a `sleep(ms)`, an `onChunk(s)` emission, and
a `mcpManager.callTool(name, …)` invocation. -/
inductive Ev where
  | provCall (idx : ℕ) (provId : String)
  | sleepEv (ms : ℕ)
  | chunk (s : String)
  | toolExec (name : String)
deriving DecidableEq, Repr

/-- `providerQueue[i]` (the loop only indexes within bounds). -/
def candAt (q : List Cand) (i : ℕ) : Cand := q.getD i ⟨"", "", ""⟩

/-- Result of the inner retry loop (`while (!responseData && attempts < 10)`):
a response, silent exhaustion of the attempt budget, or an error thrown out
of the retry loop into the turn's `catch`. -/
inductive AttemptRes where
  | got (r : ProviderResponse)
  | exhausted
  | thrown (msg : String)
deriving DecidableEq, Repr

/-- State returned by the retry loop: its result, the events it produced,
the final provider cursor, and the unconsumed provider script. -/
structure ARes where
  res : AttemptRes
  evs : List Ev
  pIdx : ℕ
  rest : List ProviderOutcome
deriving DecidableEq, Repr

/-- The inner retry loop (`ai_service.ts` lines 230–324).  `fuel` is the
remaining attempt budget (10 at turn start).  On `RateLimit` with more than
one candidate the cursor advances modulo the queue length and the loop
continues immediately; with a single candidate it warns, sleeps 5 s and
retries the same candidate.  On any other error it advances and retries
when alternatives exist, otherwise the error is thrown.  An exhausted
script behaves as a response carrying no message. -/
def runAttempts (q : List Cand) : ℕ → List ProviderOutcome → ℕ → ARes
  | 0, script, p => ⟨.exhausted, [], p, script⟩
  | fuel + 1, script, p =>
    let o := script.headD .emptyResp
    let rest := script.tail
    let cid := (candAt q p).id
    let ev0 := Ev.provCall p cid
    match o with
    | .success r => ⟨.got r, [ev0], p, rest⟩
    | .emptyResp =>
      let a := runAttempts q fuel rest p
      ⟨a.res, ev0 :: a.evs, a.pIdx, a.rest⟩
    | .rateLimited =>
      if 1 < q.length then
        let p2 := (p + 1) % q.length
        let a := runAttempts q fuel rest p2
        ⟨a.res,
          ev0 :: Ev.chunk ("\n⚠️ Provider **" ++ cid ++ "** is overloaded.")
              :: Ev.chunk (" Switching to **" ++ (candAt q p2).id ++ "**...\n")
              :: a.evs,
          a.pIdx, a.rest⟩
      else
        let a := runAttempts q fuel rest p
        ⟨a.res,
          ev0 :: Ev.chunk ("\n⚠️ Provider **" ++ cid ++ "** is overloaded.")
              :: Ev.chunk "\n⏳ Waiting 5s to retry...\n"
              :: Ev.sleepEv 5000
              :: a.evs,
          a.pIdx, a.rest⟩
    | .fatal msg =>
      if 1 < q.length then
        let p2 := (p + 1) % q.length
        let a := runAttempts q fuel rest p2
        ⟨a.res,
          ev0 :: Ev.chunk (" Error encountered. Switching to **" ++ (candAt q p2).id ++ "**...\n")
              :: a.evs,
          a.pIdx, a.rest⟩
      else ⟨.thrown msg, [ev0], p, rest⟩

/-- The tool names intercepted in manual mode. -/
def mutatingNames : List String :=
  ["write_file", "edit_file", "execute_command", "create_directory"]

/-- `responseData.tool_calls.some(t => [...].includes(t.function.name))` -/
def isWriteCalls (calls : List ToolCall) : Bool :=
  calls.any fun c => mutatingNames.contains c.name

/-- JavaScript template-literal rendering of a possibly-absent string
(`undefined` prints as `"undefined"`). -/
def renderOpt (o : Option String) : String := o.getD "undefined"

/-- JavaScript `v || dflt` rendering used inside the edit-file tag. -/
def renderOr (o : Option String) (dflt : String) : String :=
  match o with
  | some c => if c = "" then dflt else c
  | none => dflt

/-- The Dyad UI tag synthesised for one intercepted tool call
(`ai_service.ts` lines 341–361). -/
def uiTag (call : ToolCall) : String :=
  let pathVal := (call.args.path).getD ""
  if call.name = "write_file" then
    "\n<dyad-write path=\"" ++ pathVal ++ "\" description=\"Proposed file creation\">\n"
      ++ renderOpt call.args.content ++ "\n</dyad-write>\n"
  else if call.name = "edit_file" then
    "\n<dyad-write path=\"" ++ pathVal
      ++ "\" description=\"Proposed edit (Full overwrite for safety)\">\n"
      ++ renderOr call.args.content "(Content missing from tool call)"
      ++ "\n</dyad-write>\n"
  else if call.name = "execute_command" then
    "\n<dyad-command type=\"execute\" command=\"" ++ renderOpt call.args.command
      ++ "\">Run: " ++ renderOpt call.args.command ++ "</dyad-command>\n"
  else
    "\n> **Proposal:** Run tool `" ++ call.name ++ "` on `" ++ pathVal ++ "`\n"

/-- The per-tool progress emoji (`emojiMap`, default `🛠️`). -/
def emojiFor (n : String) : String :=
  if n = "write_file" then "💾" else if n = "edit_file" then "📝"
  else if n = "read_file" then "📖" else if n = "execute_command" then "💻"
  else if n = "create_directory" then "📂" else if n = "list_directory" then "👀"
  else if n = "search_files" then "🔎" else "🛠️"

/-- The `fileTarget` fragment of the per-tool progress chunk. -/
def fileTargetFor (c : ToolCall) : String :=
  if c.name = "search_files" then " \"" ++ (c.args.pattern.getD "") ++ "\""
  else match c.args.path with
    | some p => if p = "" then "" else " (" ++ p ++ ")"
    | none => ""

/-- State returned by the tool-execution loop. -/
structure ExecRes where
  evs : List Ev
  hasError : Bool
  rest : List ToolOutcome
deriving DecidableEq, Repr

/-- Sequential execution of one response's tool calls (`ai_service.ts`
lines 367–404): per call a progress chunk, the `callTool` invocation, and a
success/failure chunk; `hasError` stays set once any call fails, and the
loop still executes the remaining calls. -/
def execTools : List ToolCall → List ToolOutcome → ExecRes
  | [], ts => ⟨[], false, ts⟩
  | c :: cs, ts =>
    let oc := ts.headD (.okText "Success")
    let agentEv := Ev.chunk ("\n" ++ emojiFor c.name ++ " **Agent:** " ++ c.name
      ++ fileTargetFor c ++ "\n")
    let stepEvs : List Ev × Bool :=
      match oc with
      | .okText _ => ([Ev.toolExec c.name, Ev.chunk "✅ Done.\n"], false)
      | .errText m =>
        ([Ev.toolExec c.name,
          Ev.chunk ("❌ Failed: " ++ takeStr ("Error: " ++ m) 100 ++ "...\n")], true)
      | .threw m =>
        ([Ev.toolExec c.name, Ev.chunk ("❌ Failed: " ++ m ++ "\n")], true)
    let k := execTools cs ts.tail
    ⟨agentEv :: stepEvs.1 ++ k.evs, stepEvs.2 || k.hasError, k.rest⟩

/-- `if (responseData.content) { onChunk(responseData.content); … }` — the
chunk emitted for a truthy response content. -/
def contentEvs (r : ProviderResponse) : List Ev :=
  match r.content with
  | some c => if c = "" then [] else [Ev.chunk c]
  | none => []

/-- Does this provider outcome fail to produce a response without throwing
out of the retry loop?  (`RateLimit`, a message-less response, or another
error while failover candidates exist.) -/
def attemptFails (qlen : ℕ) : ProviderOutcome → Bool
  | .success _ => false
  | .fatal _ => decide (1 < qlen)
  | _ => true

/-- How a run ended. -/
inductive RunEnd where
  /-- `while (turnCount < MAX_TURNS)` ran out. -/
  | outOfTurns
  /-- `if (!responseData) break;` — silent retry exhaustion. -/
  | noResponse
  /-- Manual-approval interception emitted proposals and broke the loop. -/
  | proposalStop
  /-- The response carried no tool calls (`else { break; }`). -/
  | noToolCalls
  /-- A tool failed and auto-fix is disabled. -/
  | toolErrorStop
  /-- The turn's `catch` emitted a fatal-error chunk and broke the loop. -/
  | fatalStop
  /-- The provider queue was empty (`No valid API keys`). -/
  | configError
deriving DecidableEq, Repr

/-- Result of a run: its event trace, how it ended, and how many turns of
the `while` loop executed. -/
structure RunResult where
  trace : List Ev
  ending : RunEnd
  turns : ℕ
deriving DecidableEq, Repr

/-- The turn loop (`ai_service.ts` lines 222–415).  `fuel` is
`MAX_TURNS - turnCount`.  Each turn runs the retry loop with an attempt
budget of 10; a thrown error is caught and ends the run with a fatal
chunk; exhaustion ends the run silently; a response's content (when
truthy) is emitted; manual mode intercepts mutating tool calls into UI
proposal tags and breaks; otherwise tools run in sequence and the loop
continues unless a tool failed with auto-fix disabled or no tool calls
were present. -/
def runLoop (auto autoFix : Bool) (q : List Cand) :
    ℕ → List ProviderOutcome → List ToolOutcome → ℕ → RunResult
  | 0, _, _, _ => ⟨[], .outOfTurns, 0⟩
  | fuel + 1, script, ts, p =>
    let a := runAttempts q 10 script p
    match a.res with
    | .thrown msg =>
      ⟨a.evs ++ [Ev.chunk ("\n[Fatal Error: " ++ msg ++ "]\n")], .fatalStop, 1⟩
    | .exhausted => ⟨a.evs, .noResponse, 1⟩
    | .got r =>
      if r.toolCalls.isEmpty then ⟨a.evs ++ contentEvs r, .noToolCalls, 1⟩
      else if !auto && isWriteCalls r.toolCalls then
        ⟨a.evs ++ contentEvs r ++ r.toolCalls.map (fun c => Ev.chunk (uiTag c)),
          .proposalStop, 1⟩
      else
        let e := execTools r.toolCalls ts
        if e.hasError && !autoFix then
          ⟨a.evs ++ contentEvs r ++ e.evs, .toolErrorStop, 1⟩
        else
          let k := runLoop auto autoFix q fuel a.rest e.rest a.pIdx
          ⟨a.evs ++ contentEvs r ++ e.evs ++ k.trace, k.ending, k.turns + 1⟩

/-- `MAX_TURNS = (isAgentMode && autoApprove) ? 50 : 1` -/
def maxTurnsOf (s : Settings) : ℕ :=
  if isAgentModeOf s && autoApproveOf s then 50 else 1

/-- The queue-empty configuration-error chunk. -/
def noKeysChunk : String := "❌ Error: No valid API keys found. Please check Settings."

/-- Top-level run (`streamChat` steps 2 and 6): build and filter the
provider queue; report a configuration error and stop when it is empty;
otherwise run the turn loop starting at cursor 0. -/
def streamChatRun (s : Settings) (script : List ProviderOutcome)
    (ts : List ToolOutcome) : RunResult :=
  let q := buildProviderQueue s
  if q.isEmpty then ⟨[Ev.chunk noKeysChunk], .configError, 0⟩
  else runLoop (autoApproveOf s) (autoFixOf s) q (maxTurnsOf s) script ts 0

/-! ## `MCPManager.callTool`: the edit_file and search_files branches

The project filesystem under the connected root is modelled as a partial
map from root-relative resolved paths to file contents; directories are
implicit (`mkdirSync` of missing parents has no observable effect in this
model).  The write/edit branch wraps its body in `try/catch` and returns
`{ error }` on any failure, so its result is a plain value, never a thrown
fault. -/

/-- Result value of a `callTool` branch: a success payload or an `error`
field. -/
inductive ToolRes where
  | okRes (text : String)
  | errRes (msg : String)
deriving DecidableEq, Repr

/-- `p.replace(/^[\\\/]/, '')` — strip one leading path separator before
joining onto the root. -/
def stripLead (p : String) : String :=
  match p.data with
  | c :: rest => if c = '/' || c = '\\' then String.mk rest else p
  | [] => p

/-- The `edit_file` branch of `MCPManager.callTool` (ai_service.ts lines
805–831): resolve the path, fail descriptively when the file is missing,
apply the fuzzy patcher, fail descriptively when it finds no match
(`if (!finalContent) throw …`, which also treats an empty result as no
match), and only on success write the full new content. -/
def callToolEditFile (fs : String → Option String)
    (pathArg search repl : String) : ToolRes × (String → Option String) :=
  let full := stripLead pathArg
  match fs full with
  | none =>
    (.errRes ("File Operation Failed: File not found: " ++ pathArg
      ++ ". Use 'search_files' to find the correct path."), fs)
  | some content =>
    match applySearchReplace content search repl with
    | none =>
      (.errRes ("File Operation Failed: Search block not found in " ++ pathArg
        ++ ". Ensure whitespace matches."), fs)
    | some newContent =>
      if newContent = "" then
        (.errRes ("File Operation Failed: Search block not found in " ++ pathArg
          ++ ". Ensure whitespace matches."), fs)
      else (.okRes ("Successfully wrote to " ++ pathArg ++ "."),
        fun q => if q = full then some newContent else fs q)

/-- Result of the `search_files` branch: the returned text, together with
the `limitedFiles` list the text was built from. -/
structure SearchFilesOut where
  text : String
  listed : List String
deriving DecidableEq, Repr

/-- The `search_files` branch of `MCPManager.callTool` (ai_service.ts lines
834–852), with the glob library's match list abstracted as the input:
an empty match list reports no files; otherwise the result is capped at
the first 50 entries with a `showing first 50` indicator. -/
def searchFilesRes (files : List String) : SearchFilesOut :=
  if files.length = 0 then ⟨"No files found matching that pattern.", []⟩
  else
    ⟨"Found files (showing first 50):\n" ++ String.intercalate "\n" (files.take 50),
      files.take 50⟩

/-! ## Helper lemmas -/

theorem simLt_iff (d1 m1 d2 m2 : ℕ) (h1 : 0 < m1) (h2 : 0 < m2) :
    simLt d1 m1 d2 m2 = true ↔ 1 - (d1 : ℚ) / m1 < 1 - (d2 : ℚ) / m2 := by
  rw [simLt, decide_eq_true_eq, sub_lt_sub_iff_left,
    div_lt_div_iff₀ (by exact_mod_cast h2) (by exact_mod_cast h1)]
  exact_mod_cast Iff.rfl

theorem simLtConst_iff (d m p q : ℕ) (hm : 0 < m) (hq : 0 < q) :
    simLtConst d m p q = true ↔ 1 - (d : ℚ) / m < (p : ℚ) / q := by
  have hm' : (m : ℚ) ≠ 0 := by positivity
  have hq' : (q : ℚ) ≠ 0 := by positivity
  rw [simLtConst, decide_eq_true_eq, sub_lt_iff_lt_add,
    div_add_div _ _ hq' hm', lt_div_iff₀ (by positivity), one_mul]
  exact_mod_cast Iff.rfl

theorem simGtConst_iff (d m p q : ℕ) (hm : 0 < m) (hq : 0 < q) :
    simGtConst d m p q = true ↔ (p : ℚ) / q < 1 - (d : ℚ) / m := by
  have hm' : (m : ℚ) ≠ 0 := by positivity
  have hq' : (q : ℚ) ≠ 0 := by positivity
  rw [simGtConst, decide_eq_true_eq, lt_sub_iff_add_lt,
    div_add_div _ _ hq' hm', div_lt_one (by positivity)]
  exact_mod_cast Iff.rfl

theorem simGeConst_iff (d m p q : ℕ) (hm : 0 < m) (hq : 0 < q) :
    simGeConst d m p q = true ↔ (p : ℚ) / q ≤ 1 - (d : ℚ) / m := by
  have hm' : (m : ℚ) ≠ 0 := by positivity
  have hq' : (q : ℚ) ≠ 0 := by positivity
  rw [simGeConst, decide_eq_true_eq, le_sub_iff_add_le,
    div_add_div _ _ hq' hm', div_le_one (by positivity)]
  exact_mod_cast Iff.rfl

theorem containsSubL_empty_pat (l : List Char) : containsSubL [] l = true := by
  cases l <;> simp [containsSubL, startsWithL]

theorem expandDollar_no_dollar (m a b : List Char) :
    ∀ l : List Char, '$' ∉ l → expandDollar m a b l = l := by
  intro l
  induction l with
  | nil => intro _; rfl
  | cons c rest ih =>
    intro h
    rw [List.mem_cons, not_or] at h
    have hc : ¬(c = '$') := fun e => h.1 e.symm
    unfold expandDollar
    rw [if_neg hc, ih h.2]

theorem replaceFirstL_empty_pat (repl l : List Char) :
    replaceFirstL [] repl l = expandDollar [] [] l repl ++ l := by
  cases l <;> simp [replaceFirstL, replaceFirstAux, startsWithL]

theorem mk_append (x y : String) : String.mk (x.data ++ y.data) = x ++ y := by
  cases x; cases y; rfl

theorem containsSub_empty_pat (s : String) : containsSub s "" = true :=
  containsSubL_empty_pat s.data

theorem replaceFirst_empty_pat (s r : String) :
    replaceFirst s "" r = String.mk (expandDollar [] [] s.data r.data ++ s.data) := by
  show String.mk (replaceFirstL [] r.data s.data) = _
  rw [replaceFirstL_empty_pat]

theorem replaceFirst_empty_pat_no_dollar (s r : String) (h : '$' ∉ r.data) :
    replaceFirst s "" r = r ++ s := by
  rw [replaceFirst_empty_pat, expandDollar_no_dollar _ _ _ _ h, mk_append]

theorem splitNLAux_ne_nil (l : List Char) : ∀ acc, splitNLAux l acc ≠ [] := by
  induction l with
  | nil => intro acc; simp [splitNLAux]
  | cons c rest ih =>
    intro acc
    by_cases hc : c = '\n' <;> simp [splitNLAux, hc, ih]

theorem stripCRs_ne_nil (xs : List String) (h : xs ≠ []) : stripCRs xs ≠ [] := by
  rcases xs with _ | ⟨x, xs⟩
  · exact absurd rfl h
  · rcases xs with _ | ⟨y, rest⟩ <;> simp [stripCRs]

theorem splitLines_ne_nil (s : String) : splitLines s ≠ [] :=
  stripCRs_ne_nil _ (splitNLAux_ne_nil s.data [])

theorem applySearchReplaceGen_exact (gate : String → String → Bool) (ee : ℕ × ℕ)
    (f s r : String) (h : containsSub (normLF f) (normLF s) = true) :
    applySearchReplaceGen gate ee f s r
      = some (replaceFirst (normLF f) (normLF s) (normLF r)) := by
  have hlen : ¬(splitLines s).length = 0 :=
    Nat.pos_iff_ne_zero.mp (List.length_pos.mpr (splitLines_ne_nil s))
  simp only [normLF] at h ⊢
  simp [applySearchReplaceGen, hlen, h]

theorem runAttempts_no_toolExec (q : List Cand) :
    ∀ fuel script p n, Ev.toolExec n ∉ (runAttempts q fuel script p).evs := by
  intro fuel
  induction fuel with
  | zero => intro script p n; simp [runAttempts]
  | succ fuel ih =>
    intro script p n
    rcases script with _ | ⟨o, rest⟩
    · simp [runAttempts, ih]
    · rcases o <;> by_cases hq : 1 < q.length <;>
        simp [runAttempts, hq, ih]

theorem runAttempts_exhausted (q : List Cand) :
    ∀ n script p, (script.take n).all (attemptFails q.length) = true →
      (runAttempts q n script p).res = AttemptRes.exhausted := by
  intro n
  induction n with
  | zero => intro script p _; simp [runAttempts]
  | succ n ih =>
    intro script p h
    rcases script with _ | ⟨o, rest⟩
    · simpa [runAttempts] using ih [] p (by simp)
    · rw [List.take_succ_cons, List.all_cons, Bool.and_eq_true] at h
      obtain ⟨ho, hrest⟩ := h
      rcases o with r | _ | _ | msg
      · simp [attemptFails] at ho
      · by_cases hq : 1 < q.length <;>
          simpa [runAttempts, hq] using ih rest _ hrest
      · simpa [runAttempts] using ih rest p hrest
      · have hq : 1 < q.length := by simpa [attemptFails] using ho
        simpa [runAttempts, hq] using ih rest _ hrest

theorem runLoop_fuel_one_turns (auto autoFix : Bool) (q : List Cand)
    (script : List ProviderOutcome) (ts : List ToolOutcome) (p : ℕ) :
    (runLoop auto autoFix q 1 script ts p).turns ≤ 1 := by
  show (runLoop auto autoFix q (0 + 1) script ts p).turns ≤ 1
  rcases ha : runAttempts q 10 script p with ⟨res, evs, pi, rest⟩
  rcases res with r | _ | msg
  · simp only [runLoop, ha]
    split_ifs <;> simp [runLoop]
  · simp [runLoop, ha]
  · simp [runLoop, ha]

/-! ## Claims -/

/-- C2, counterexample: starting from the file content produced by the
spec's exact-match patch example, applying the same patch a second time
does **not** return none — in both revisions of the patcher the fuzzy path
matches the already-edited line `  return 2;` against the search block
`return 1;` (similarity 8/9 ≈ 0.889 ≥ 0.85) and reports a successful
edit. -/
theorem patch_second_apply_not_none :
    applySearchReplace "function foo() \x7b\n  return 1;\n\x7d\n" "return 1;" "return 2;"
      = some "function foo() \x7b\n  return 2;\n\x7d\n"
    ∧ applySearchReplace "function foo() \x7b\n  return 2;\n\x7d\n" "return 1;" "return 2;"
        ≠ none
    ∧ applySearchReplaceV2 "function foo() \x7b\n  return 2;\n\x7d\n" "return 1;" "return 2;"
        ≠ none := by
  decide

/-- C2, amended: re-applying the spec's example patch to the already-edited
file returns `some` of the **unchanged** content (the fuzzy path re-applies
the replacement onto the line that already carries it), in both revisions
of the patcher — idempotent in the produced content, but signalled as a
successful edit rather than as `none`. -/
theorem patch_second_apply_same_content :
    applySearchReplace "function foo() \x7b\n  return 2;\n\x7d\n" "return 1;" "return 2;"
      = some "function foo() \x7b\n  return 2;\n\x7d\n"
    ∧ applySearchReplaceV2 "function foo() \x7b\n  return 2;\n\x7d\n" "return 1;" "return 2;"
      = some "function foo() \x7b\n  return 2;\n\x7d\n" := by
  decide

/-- C3, counterexample: a CRLF file patched on the exact-match path comes
back LF-joined — the original CRLF convention is **not** preserved (the
exact path returns `fileStr.replace(...)` built from the `"\n"`-joined
lines and never uses the detected `lineEnding`). -/
theorem exact_path_drops_crlf :
    applySearchReplace "a\r\nb\r\n" "a" "x" = some "x\nb\n"
    ∧ containsSub "a\r\nb\r\n" "\r\n" = true
    ∧ containsSub "x\nb\n" "\r\n" = false := by
  decide

/-- C3, amended: the patcher detects the original line ending and the fuzzy
path rejoins its result with it (illustrated by the CRLF-preserving fuzzy
edit below), but whenever the exact-match path fires — i.e. the normalized
search text occurs in the normalized file — the result is exactly the
first-occurrence replacement over the **LF-normalized** file, independent
of the file's original convention. -/
theorem applySearchReplace_exact_path_normalized :
    (∀ f s r : String, containsSub (normLF f) (normLF s) = true →
      applySearchReplace f s r = some (replaceFirst (normLF f) (normLF s) (normLF r)))
    ∧ applySearchReplace "ab\r\ncd\r\n" "ab " "xy" = some "xy\r\ncd\r\n" := by
  refine ⟨fun f s r h => applySearchReplaceGen_exact gateSkipV1 (99, 100) f s r h, ?_⟩
  decide

/-- Witness for the amended C3 theorem at the concrete CRLF input of the
counterexample. -/
theorem applySearchReplace_exact_path_normalized_witness :
    containsSub (normLF "a\r\nb\r\n") (normLF "a") = true
    ∧ applySearchReplace "a\r\nb\r\n" "a" "x"
        = some (replaceFirst (normLF "a\r\nb\r\n") (normLF "a") (normLF "x")) :=
  ⟨by decide, applySearchReplace_exact_path_normalized.1 "a\r\nb\r\n" "a" "x" (by decide)⟩

/-- C10, counterexample: with an empty search block and the replace block
`$&`, JavaScript `$`-substitution expands `$&` to the (empty) matched
substring, so the file comes back unchanged — the replace block is **not**
prepended to the file content. -/
theorem empty_search_dollar_counterexample :
    applySearchReplace "abc" "" "$&" = some "abc"
    ∧ some "abc" ≠ some ("$&" ++ "abc") := by
  decide

/-- C10, amended: with an empty search block `applySearchReplace` never
returns none — the empty string matches on the exact-match path at
position 0 — and the result is the `$`-substitution expansion of the
LF-normalized replace block (expanded against the empty match at position
0, whose following portion is the normalized file content) prepended to
the LF-normalized file content; for a replace block whose normalized form
contains no `$`, this is exactly the normalized replace block prepended to
the normalized file content. -/
theorem empty_search_expansion (f r : String) :
    applySearchReplace f "" r
      = some (String.mk (expandDollar [] [] (normLF f).data (normLF r).data
          ++ (normLF f).data))
    ∧ ('$' ∉ (normLF r).data →
        applySearchReplace f "" r = some (normLF r ++ normLF f)) := by
  have h0 : normLF "" = "" := rfl
  have h := applySearchReplaceGen_exact gateSkipV1 (99, 100) f "" r
    (by rw [h0]; exact containsSub_empty_pat _)
  constructor
  · show applySearchReplaceGen gateSkipV1 (99, 100) f "" r = _
    rw [h, h0, replaceFirst_empty_pat]
  · intro hd
    show applySearchReplaceGen gateSkipV1 (99, 100) f "" r = _
    rw [h, h0, replaceFirst_empty_pat_no_dollar _ _ hd]

/-- Witness for the amended C10 theorem: a `$`-free replace block is
prepended (in normalized form) to the normalized file content. -/
theorem empty_search_expansion_witness :
    '$' ∉ (normLF "XX").data
    ∧ applySearchReplace "hello\nworld" "" "XX"
        = some (normLF "XX" ++ normLF "hello\nworld") :=
  ⟨by decide, (empty_search_expansion "hello\nworld" "XX").2 (by decide)⟩

/-- C8: when the target file exists but the fuzzy patcher finds no match
above the threshold, the `edit_file` branch of `callTool` returns a
descriptive error **result** (its `try`/`catch` converts the internal
throw into an `{ error }` value, so no fault reaches the caller of
`callTool`) and the filesystem is left completely unchanged — no partial
content is written. -/
theorem edit_file_no_match_error (fs : String → Option String)
    (p s r content : String)
    (hread : fs (stripLead p) = some content)
    (hnomatch : applySearchReplace content s r = none) :
    callToolEditFile fs p s r =
      (ToolRes.errRes ("File Operation Failed: Search block not found in " ++ p
        ++ ". Ensure whitespace matches."), fs) := by
  simp [callToolEditFile, hread, hnomatch]

/-- Witness for C8 at a concrete two-line file and an unmatched search
block. -/
theorem edit_file_no_match_error_witness :
    (fun q => if q = "a.txt" then some "hello\nworld" else none) (stripLead "a.txt")
      = some "hello\nworld"
    ∧ applySearchReplace "hello\nworld" "qqqq" "y" = none
    ∧ callToolEditFile (fun q => if q = "a.txt" then some "hello\nworld" else none)
        "a.txt" "qqqq" "y"
      = (ToolRes.errRes
          "File Operation Failed: Search block not found in a.txt. Ensure whitespace matches.",
        fun q => if q = "a.txt" then some "hello\nworld" else none) :=
  ⟨by decide, by decide,
    edit_file_no_match_error (fun q => if q = "a.txt" then some "hello\nworld" else none)
      "a.txt" "qqqq" "y" "hello\nworld" (by decide) (by decide)⟩

/-- C9: `search_files` lists at most 50 paths for every match set, and when
more than 50 paths match, the listed paths are exactly the first 50 of the
match set while the returned text carries the `showing first 50` truncation
indicator with them. -/
theorem search_files_truncation (files : List String) :
    (searchFilesRes files).listed.length ≤ 50
    ∧ (50 < files.length →
        (searchFilesRes files).listed = files.take 50
        ∧ (searchFilesRes files).text =
            "Found files (showing first 50):\n"
              ++ String.intercalate "\n" (files.take 50)) := by
  by_cases h : files.length = 0
  · simp [searchFilesRes, h]
  · refine ⟨?_, fun _ => by simp [searchFilesRes, h]⟩
    simp [searchFilesRes, h, List.length_take]

/-- Witness for C9 on a 51-element match set. -/
theorem search_files_truncation_witness :
    50 < (List.replicate 51 "f").length
    ∧ ((searchFilesRes (List.replicate 51 "f")).listed = (List.replicate 51 "f").take 50
      ∧ (searchFilesRes (List.replicate 51 "f")).text =
          "Found files (showing first 50):\n"
            ++ String.intercalate "\n" ((List.replicate 51 "f").take 50)) :=
  ⟨by decide, (search_files_truncation (List.replicate 51 "f")).2 (by decide)⟩

theorem trimStr_empty : trimStr "" = "" := rfl

theorem filter_keyPiece (k : Option String) (cand : Cand) (hkey : cand.key = k.getD "") :
    (if truthy k then [cand] else []).filter
        (fun c => c.key ≠ "" && trimStr c.key ≠ "")
      = if k.any (fun v => trimStr v ≠ "") then [cand] else [] := by
  rcases k with _ | v
  · simp [truthy]
  · by_cases hv : v = ""
    · subst hv
      simp [truthy, trimStr_empty]
    · simp only [Option.getD] at hkey
      by_cases ht : trimStr v = "" <;>
        simp [truthy, hv, hkey, ht, List.filter]

/-- C4: the provider queue built at run start contains only candidates with
a non-blank key; a manual selection yields at most one candidate; in auto
mode the queue is exactly the fixed openrouter → google → openai →
anthropic → ollama chain filtered to usable credentials (`autoQueueSpec`);
and an empty queue makes the run emit the configuration-error chunk and
stop with no provider call (`configError`, an empty-turn trace). -/
theorem provider_queue_spec (s : Settings) (script : List ProviderOutcome)
    (ts : List ToolOutcome) :
    (∀ c ∈ buildProviderQueue s, trimStr c.key ≠ "")
    ∧ (requestedProvider s ≠ "auto" →
        (buildProviderQueue s).length ≤ 1
        ∧ buildProviderQueue s =
          (if trimStr ((if requestedProvider s = "ollama" then some "ollama"
              else getKey s (requestedProvider s)).getD "") ≠ "" then
            [⟨requestedProvider s, orFalsy s.selectedName "gpt-4o",
              (if requestedProvider s = "ollama" then some "ollama"
               else getKey s (requestedProvider s)).getD ""⟩]
          else []))
    ∧ (requestedProvider s = "auto" → buildProviderQueue s = autoQueueSpec s)
    ∧ (buildProviderQueue s = [] →
        streamChatRun s script ts = ⟨[Ev.chunk noKeysChunk], RunEnd.configError, 0⟩) := by
  refine ⟨?_, ?_, ?_, ?_⟩
  · intro c hc
    rw [buildProviderQueue] at hc
    have h := List.of_mem_filter hc
    simp only [Bool.and_eq_true, decide_eq_true_eq] at h
    exact h.2
  · intro h
    constructor
    · rw [buildProviderQueue, rawQueue, if_pos h]
      exact le_trans (List.length_filter_le _ _) (by simp)
    rw [buildProviderQueue, rawQueue, if_pos h]
    by_cases h0 : ((if requestedProvider s = "ollama" then some "ollama"
        else getKey s (requestedProvider s)).getD "") = ""
    · simp [List.filter, h0, trimStr_empty]
    · by_cases h1 : trimStr ((if requestedProvider s = "ollama" then some "ollama"
          else getKey s (requestedProvider s)).getD "") = "" <;>
        simp [List.filter, h0, h1]
  · intro h
    rw [buildProviderQueue, rawQueue, if_neg (by simp [h]), autoQueueSpec]
    simp only [List.filter_append]
    rw [filter_keyPiece (getKey s "openrouter") _ rfl,
      filter_keyPiece (getKey s "google") _ rfl,
      filter_keyPiece (getKey s "openai") _ rfl,
      filter_keyPiece (getKey s "anthropic") _ rfl]
    by_cases ho : (s.isOllamaEnabled || truthy (getKey s "ollama")) = true
    · simp [ho, List.filter]
      decide
    · simp [ho, List.filter]
  · intro h
    simp [streamChatRun, h]

/-- Witness for C4: an auto-mode configuration with a google key and ollama
enabled matches `autoQueueSpec`, and a keyless configuration yields an
empty queue, the configuration-error chunk and no provider call. -/
theorem provider_queue_spec_witness :
    (requestedProvider ⟨some "ask", none, none, none, none,
        (fun p => if p = "google" then some "g-key" else none),
        (fun _ => none), true⟩ = "auto"
      ∧ buildProviderQueue ⟨some "ask", none, none, none, none,
          (fun p => if p = "google" then some "g-key" else none),
          (fun _ => none), true⟩
        = autoQueueSpec ⟨some "ask", none, none, none, none,
            (fun p => if p = "google" then some "g-key" else none),
            (fun _ => none), true⟩)
    ∧ (buildProviderQueue ⟨some "ask", none, none, none, none,
          (fun _ => none), (fun _ => none), false⟩ = []
      ∧ streamChatRun ⟨some "ask", none, none, none, none,
          (fun _ => none), (fun _ => none), false⟩ [] []
        = ⟨[Ev.chunk noKeysChunk], RunEnd.configError, 0⟩) :=
  ⟨⟨by decide,
    (provider_queue_spec ⟨some "ask", none, none, none, none,
      (fun p => if p = "google" then some "g-key" else none),
      (fun _ => none), true⟩ [] []).2.2.1 (by decide)⟩,
   ⟨by decide,
    (provider_queue_spec ⟨some "ask", none, none, none, none,
      (fun _ => none), (fun _ => none), false⟩ [] []).2.2.2 (by decide)⟩⟩

/-- C5: on a rate-limited attempt, a queue with more than one candidate
advances the cursor by one modulo the queue length and the next attempt
proceeds immediately — the events inserted before the continuation contain
no sleep — while a single-candidate queue keeps the cursor and sleeps a
fixed 5 seconds before retrying the same candidate. -/
theorem rate_limit_failover (q : List Cand) (p fuel : ℕ)
    (script : List ProviderOutcome) :
    (1 < q.length →
      runAttempts q (fuel + 1) (ProviderOutcome.rateLimited :: script) p =
        ⟨(runAttempts q fuel script ((p + 1) % q.length)).res,
          Ev.provCall p (candAt q p).id
            :: Ev.chunk ("\n⚠️ Provider **" ++ (candAt q p).id ++ "** is overloaded.")
            :: Ev.chunk (" Switching to **" ++ (candAt q ((p + 1) % q.length)).id ++ "**...\n")
            :: (runAttempts q fuel script ((p + 1) % q.length)).evs,
          (runAttempts q fuel script ((p + 1) % q.length)).pIdx,
          (runAttempts q fuel script ((p + 1) % q.length)).rest⟩
      ∧ Ev.sleepEv 5000 ∉ [Ev.provCall p (candAt q p).id,
          Ev.chunk ("\n⚠️ Provider **" ++ (candAt q p).id ++ "** is overloaded."),
          Ev.chunk (" Switching to **" ++ (candAt q ((p + 1) % q.length)).id ++ "**...\n")])
    ∧ (q.length = 1 →
      runAttempts q (fuel + 1) (ProviderOutcome.rateLimited :: script) p =
        ⟨(runAttempts q fuel script p).res,
          Ev.provCall p (candAt q p).id
            :: Ev.chunk ("\n⚠️ Provider **" ++ (candAt q p).id ++ "** is overloaded.")
            :: Ev.chunk "\n⏳ Waiting 5s to retry...\n"
            :: Ev.sleepEv 5000
            :: (runAttempts q fuel script p).evs,
          (runAttempts q fuel script p).pIdx,
          (runAttempts q fuel script p).rest⟩) := by
  constructor
  · intro h
    exact ⟨by simp [runAttempts, h], by simp⟩
  · intro h
    have h1 : ¬(1 < q.length) := by omega
    simp [runAttempts, h1]

/-- Witness for C5: two consecutive 429s on a 2-candidate queue advance the
cursor 0 → 1 → 0 with no sleep, and on a 1-candidate queue they keep cursor
0 with a 5-second sleep before each retry. -/
theorem rate_limit_failover_witness :
    1 < ([⟨"openrouter", "m1", "k1"⟩, ⟨"google", "m2", "k2"⟩] : List Cand).length
    ∧ runAttempts [⟨"openrouter", "m1", "k1"⟩, ⟨"google", "m2", "k2"⟩] 10
        [ProviderOutcome.rateLimited, ProviderOutcome.rateLimited] 0 =
      ⟨(runAttempts [⟨"openrouter", "m1", "k1"⟩, ⟨"google", "m2", "k2"⟩] 9
          [ProviderOutcome.rateLimited] ((0 + 1) % 2)).res,
        Ev.provCall 0 "openrouter"
          :: Ev.chunk "\n⚠️ Provider **openrouter** is overloaded."
          :: Ev.chunk " Switching to **google**...\n"
          :: (runAttempts [⟨"openrouter", "m1", "k1"⟩, ⟨"google", "m2", "k2"⟩] 9
              [ProviderOutcome.rateLimited] ((0 + 1) % 2)).evs,
        (runAttempts [⟨"openrouter", "m1", "k1"⟩, ⟨"google", "m2", "k2"⟩] 9
            [ProviderOutcome.rateLimited] ((0 + 1) % 2)).pIdx,
        (runAttempts [⟨"openrouter", "m1", "k1"⟩, ⟨"google", "m2", "k2"⟩] 9
            [ProviderOutcome.rateLimited] ((0 + 1) % 2)).rest⟩
    ∧ runAttempts [⟨"openai", "m", "k"⟩] 10 [ProviderOutcome.rateLimited] 0 =
      ⟨(runAttempts [⟨"openai", "m", "k"⟩] 9 [] 0).res,
        Ev.provCall 0 "openai"
          :: Ev.chunk "\n⚠️ Provider **openai** is overloaded."
          :: Ev.chunk "\n⏳ Waiting 5s to retry...\n"
          :: Ev.sleepEv 5000
          :: (runAttempts [⟨"openai", "m", "k"⟩] 9 [] 0).evs,
        (runAttempts [⟨"openai", "m", "k"⟩] 9 [] 0).pIdx,
        (runAttempts [⟨"openai", "m", "k"⟩] 9 [] 0).rest⟩ :=
  ⟨by decide,
    (rate_limit_failover [⟨"openrouter", "m1", "k1"⟩, ⟨"google", "m2", "k2"⟩] 0 9
      [ProviderOutcome.rateLimited]).1 (by decide) |>.1,
    (rate_limit_failover [⟨"openai", "m", "k"⟩] 0 9 []).2 (by decide)⟩

/-- C6: when all 10 attempts of a turn fail to produce a provider response
(rate limits, message-less responses, or failed-over errors), the turn
yields no response and the run loop ends at once — the trace is exactly the
attempt-phase events with nothing appended (no fatal chunk, no exhaustion
signal), the ending is the silent `noResponse`, and no tool executes. -/
theorem retry_exhaustion_silent (auto autoFix : Bool) (q : List Cand)
    (fuel : ℕ) (script : List ProviderOutcome) (ts : List ToolOutcome) (p : ℕ)
    (h : (script.take 10).all (attemptFails q.length) = true) :
    runLoop auto autoFix q (fuel + 1) script ts p =
      ⟨(runAttempts q 10 script p).evs, RunEnd.noResponse, 1⟩
    ∧ ∀ n, Ev.toolExec n ∉ (runLoop auto autoFix q (fuel + 1) script ts p).trace := by
  have hres := runAttempts_exhausted q 10 script p h
  have h1 : runLoop auto autoFix q (fuel + 1) script ts p =
      ⟨(runAttempts q 10 script p).evs, RunEnd.noResponse, 1⟩ := by
    rcases ha : runAttempts q 10 script p with ⟨res, evs, pi, rest⟩
    rw [ha] at hres
    simp only [ARes.res] at hres
    subst hres
    simp [runLoop, ha]
  refine ⟨h1, fun n => ?_⟩
  rw [h1]
  exact runAttempts_no_toolExec q 10 script p n

/-- Witness for C6: a single-candidate queue hit by 10 consecutive 429s
ends the run with `noResponse` after the attempt events. -/
theorem retry_exhaustion_silent_witness :
    ((List.replicate 10 ProviderOutcome.rateLimited).take 10).all (attemptFails 1) = true
    ∧ runLoop false true [⟨"openai", "gpt-4o", "k"⟩] 1
        (List.replicate 10 ProviderOutcome.rateLimited) [] 0 =
      ⟨(runAttempts [⟨"openai", "gpt-4o", "k"⟩] 10
          (List.replicate 10 ProviderOutcome.rateLimited) 0).evs,
        RunEnd.noResponse, 1⟩ :=
  ⟨by decide,
    (retry_exhaustion_silent false true [⟨"openai", "gpt-4o", "k"⟩] 0
      (List.replicate 10 ProviderOutcome.rateLimited) [] 0 (by decide)).1⟩

/-- C7: in ask mode (plain chat) `MAX_TURNS` is 1, so a run never executes
more than one turn — regardless of the provider outcomes and even when the
response carries tool calls. -/
theorem ask_mode_single_turn (s : Settings) (script : List ProviderOutcome)
    (ts : List ToolOutcome) (h : chatModeOf s = "ask") :
    (streamChatRun s script ts).turns ≤ 1 := by
  have hmt : maxTurnsOf s = 1 := by
    simp [maxTurnsOf, isAgentModeOf, h]
  by_cases hq : (buildProviderQueue s).isEmpty
  · simp [streamChatRun, hq]
  · simp only [streamChatRun, hq, Bool.false_eq_true, if_false, hmt]
    exact runLoop_fuel_one_turns _ _ _ _ _ _

/-- Witness for C7: a plain-chat run where the provider answers with a
mutating tool call still executes exactly one turn. -/
theorem ask_mode_single_turn_witness :
    chatModeOf ⟨some "ask", some true, none, some "openai", none,
        (fun p => if p = "openai" then some "sk" else none), (fun _ => none), false⟩
      = "ask"
    ∧ (streamChatRun ⟨some "ask", some true, none, some "openai", none,
        (fun p => if p = "openai" then some "sk" else none), (fun _ => none), false⟩
        [ProviderOutcome.success ⟨none,
          [⟨"call_1", "write_file", { path := some "a.ts", content := some "x" }⟩]⟩]
        [ToolOutcome.okText "ok"]).turns ≤ 1 :=
  ⟨by decide,
    ask_mode_single_turn _ _ _ (by decide)⟩

/-- C1: in agent-manual mode (agent chat mode with auto-approve off), as
soon as a provider response carries at least one mutating tool call
(`write_file`, `edit_file`, `execute_command` or `create_directory`), the
run emits one synthesized proposal chunk per tool call of that response and
terminates (`proposalStop` after exactly one turn) — and its whole trace
contains no `callTool` invocation, so no filesystem or process side effect
occurs for that response. -/
theorem manual_mode_proposal_halts (s : Settings) (script : List ProviderOutcome)
    (ts : List ToolOutcome) (r : ProviderResponse) (a : ARes)
    (_hmode : chatModeOf s = "agent") (happr : autoApproveOf s = false)
    (hq : buildProviderQueue s ≠ [])
    (ha : runAttempts (buildProviderQueue s) 10 script 0 = a)
    (hres : a.res = AttemptRes.got r)
    (hwrite : isWriteCalls r.toolCalls = true) :
    streamChatRun s script ts =
      ⟨a.evs ++ contentEvs r ++ r.toolCalls.map (fun c => Ev.chunk (uiTag c)),
        RunEnd.proposalStop, 1⟩
    ∧ ∀ n, Ev.toolExec n ∉ (streamChatRun s script ts).trace := by
  have hcalls : r.toolCalls ≠ [] := by
    intro hnil
    rw [hnil] at hwrite
    simp [isWriteCalls] at hwrite
  have hempty : (buildProviderQueue s).isEmpty = false := by
    simpa [List.isEmpty_iff] using hq
  have hmt : maxTurnsOf s = 1 := by simp [maxTurnsOf, happr]
  have h1 : streamChatRun s script ts =
      ⟨a.evs ++ contentEvs r ++ r.toolCalls.map (fun c => Ev.chunk (uiTag c)),
        RunEnd.proposalStop, 1⟩ := by
    simp only [streamChatRun, hempty, Bool.false_eq_true, if_false, hmt]
    show runLoop (autoApproveOf s) (autoFixOf s) (buildProviderQueue s) (0 + 1) script ts 0 = _
    rcases a with ⟨res, evs, pi, rest⟩
    simp only [ARes.res] at hres
    subst hres
    have hne : r.toolCalls.isEmpty = false := by
      simpa [List.isEmpty_iff] using hcalls
    simp [runLoop, ha, hne, happr, hwrite]
  refine ⟨h1, fun n => ?_⟩
  have hevs : Ev.toolExec n ∉ a.evs := by
    rw [← ha]
    exact runAttempts_no_toolExec _ 10 script 0 n
  have hcont : Ev.toolExec n ∉ contentEvs r := by
    rcases hc : r.content with _ | c
    · simp [contentEvs, hc]
    · by_cases hce : c = "" <;> simp [contentEvs, hc, hce]
  rw [h1]
  simp [hevs, hcont]

/-- Witness for C1: an agent-manual configuration whose provider proposes a
file write and a shell command; the run emits the two proposal tags and
stops after one turn without invoking any tool. -/
theorem manual_mode_proposal_halts_witness :
    chatModeOf ⟨some "agent", some false, none, some "openai", none,
        (fun p => if p = "openai" then some "sk" else none), (fun _ => none), false⟩
      = "agent"
    ∧ streamChatRun ⟨some "agent", some false, none, some "openai", none,
        (fun p => if p = "openai" then some "sk" else none), (fun _ => none), false⟩
        [ProviderOutcome.success ⟨some "I will write a file.",
          [⟨"call_1", "write_file", { path := some "src/a.ts", content := some "let x = 1;" }⟩,
           ⟨"call_2", "execute_command", { command := some "npm install" }⟩]⟩]
        [ToolOutcome.okText "ok"] =
      ⟨[Ev.provCall 0 "openai",
        Ev.chunk "I will write a file.",
        Ev.chunk "\n<dyad-write path=\"src/a.ts\" description=\"Proposed file creation\">\nlet x = 1;\n</dyad-write>\n",
        Ev.chunk "\n<dyad-command type=\"execute\" command=\"npm install\">Run: npm install</dyad-command>\n"],
        RunEnd.proposalStop, 1⟩ :=
  ⟨by decide,
    ((manual_mode_proposal_halts
      ⟨some "agent", some false, none, some "openai", none,
        (fun p => if p = "openai" then some "sk" else none), (fun _ => none), false⟩
      [ProviderOutcome.success ⟨some "I will write a file.",
        [⟨"call_1", "write_file", { path := some "src/a.ts", content := some "let x = 1;" }⟩,
         ⟨"call_2", "execute_command", { command := some "npm install" }⟩]⟩]
      [ToolOutcome.okText "ok"]
      ⟨some "I will write a file.",
        [⟨"call_1", "write_file", { path := some "src/a.ts", content := some "let x = 1;" }⟩,
         ⟨"call_2", "execute_command", { command := some "npm install" }⟩]⟩
      ⟨AttemptRes.got ⟨some "I will write a file.",
        [⟨"call_1", "write_file", { path := some "src/a.ts", content := some "let x = 1;" }⟩,
         ⟨"call_2", "execute_command", { command := some "npm install" }⟩]⟩,
        [Ev.provCall 0 "openai"], 0, []⟩
      (by decide) (by decide) (by decide) (by decide) (by decide) (by decide)).1)⟩

end VrindaDev
